import Mathlib

/-!
A Lean model of the session-connect API route of the repository: the
Daily-room / RunPod provisioning flow implemented in
`frontend-next/pages/api/connect.ts`.  External effects (the GraphQL
allocator and the room service) are modelled as explicit inputs, and the
modelled functions return, next to their result, the ordered trace of
external calls they would issue.
-/

namespace Connect

/-- JavaScript truthiness of an optional string: `undefined`, `null` and
the empty string are falsy, every other string is truthy. -/
def strOptTruthy : Option String → Bool
  | none => false
  | some s => s ≠ ""

/-- The idiom `process.env.X || d`: the default applies when the
variable is unset or empty. -/
def orDefault (o : Option String) (d : String) : String :=
  match o with
  | none => d
  | some s => if s ≠ "" then s else d

/-- Rendering of an optional string inside a template literal: an unset
variable prints as the text `undefined`. -/
def jsStr (o : Option String) : String :=
  match o with
  | none => "undefined"
  | some s => s

/-- A model of the JSON/JavaScript values that appear in the request
body and in `JSON.stringify`.  Object fields keep insertion order. -/
inductive Json where
  | null : Json
  | bool (b : Bool) : Json
  | num (n : Int) : Json
  | str (s : String) : Json
  | arr (elems : List Json) : Json
  | obj (fields : List (String × Json)) : Json

/-- JSON string escaping for one character, as `JSON.stringify` does. -/
def jsonEscapeChar (c : Char) : String :=
  if c = '"' then "\\\""
  else if c = '\\' then "\\\\"
  else if c = '\n' then "\\n"
  else if c = '\r' then "\\r"
  else if c = '\t' then "\\t"
  else String.singleton c

/-- JSON string escaping, as `JSON.stringify` does. -/
def jsonEscape (s : String) : String :=
  String.join (s.toList.map jsonEscapeChar)

mutual

/-- A model of `JSON.stringify` on the values above. -/
def Json.stringify : Json → String
  | .null => "null"
  | .bool true => "true"
  | .bool false => "false"
  | .num n => toString n
  | .str s => "\"" ++ jsonEscape s ++ "\""
  | .arr xs => "[" ++ Json.stringifyElems xs ++ "]"
  | .obj fs => "\x7b" ++ Json.stringifyFields fs ++ "\x7d"

/-- Comma-separated serialization of array elements. -/
def Json.stringifyElems : List Json → String
  | [] => ""
  | [x] => Json.stringify x
  | x :: y :: xs => Json.stringify x ++ "," ++ Json.stringifyElems (y :: xs)

/-- Comma-separated serialization of object fields, in insertion order. -/
def Json.stringifyFields : List (String × Json) → String
  | [] => ""
  | [(k, v)] => "\"" ++ jsonEscape k ++ "\":" ++ Json.stringify v
  | (k, v) :: f :: fs =>
      "\"" ++ jsonEscape k ++ "\":" ++ Json.stringify v ++ "," ++
        Json.stringifyFields (f :: fs)

end

/-- JavaScript truthiness of a JSON value: `null`, `false`, `0` and the
empty string are falsy, everything else is truthy. -/
def Json.truthy : Json → Bool
  | .null => false
  | .bool b => b
  | .num n => n ≠ 0
  | .str s => s ≠ ""
  | .arr _ => true
  | .obj _ => true

/-- The idiom `v || d` on JavaScript values, with `none` standing for an
absent (`undefined`) value. -/
def jsOr (v : Option Json) (d : Json) : Json :=
  match v with
  | none => d
  | some j => if j.truthy then j else d

/-- The base64 alphabet used by `Buffer.toString("base64")`. -/
def base64Chars : List Char :=
  "ABCDEFGHIJKLMNOPQRSTUVWXYZabcdefghijklmnopqrstuvwxyz0123456789+/".toList

/-- The base64 digit for a 6-bit value. -/
def base64Digit (n : Nat) : Char := base64Chars.getD n '='

/-- Base64 encoding of a byte sequence, three bytes at a time with `=`
padding. -/
def base64Chunks : List Nat → String
  | [] => ""
  | [b1] =>
      String.mk [base64Digit (b1 / 4), base64Digit (b1 % 4 * 16)] ++ "=="
  | [b1, b2] =>
      String.mk [base64Digit (b1 / 4), base64Digit (b1 % 4 * 16 + b2 / 16),
        base64Digit (b2 % 16 * 4)] ++ "="
  | b1 :: b2 :: b3 :: rest =>
      String.mk [base64Digit (b1 / 4), base64Digit (b1 % 4 * 16 + b2 / 16),
        base64Digit (b2 % 16 * 4 + b3 / 64), base64Digit (b3 % 64)] ++
        base64Chunks rest

/-- Base64 encoding of the UTF-8 bytes of a string, the model of
`Buffer.from(s).toString("base64")`. -/
def base64Encode (s : String) : String :=
  base64Chunks ((s.data.flatMap String.utf8EncodeChar).map (fun b => b.toNat))

/-- One datacenter with its network volume (`DatacenterConfig`). -/
structure DatacenterConfig where
  id : String
  networkVolumeId : String
  deriving DecidableEq

/-- One hardware configuration (`RunPodConfig`). -/
structure RunPodConfig where
  gpuTypeId : String
  minVcpuCount : Nat
  minMemoryInGb : Nat
  deriving DecidableEq

/-- One entry of the GraphQL `errors` array; `message` may be absent. -/
structure AllocError where
  message : Option String
  deriving DecidableEq

/-- The body of an allocator response (`response.data`): an optional
`errors` array and the optional `data.podFindAndDeployOnDemand.id`. -/
structure AllocResponse where
  errors : Option (List AllocError)
  podId : Option String
  deriving DecidableEq

/-- The outcome of one `axios.post` to the allocator: either a thrown
transport error carrying its message, or a parsed response body. -/
abbrev AllocResult := Except String AllocResponse

/-- Whether `pat` occurs as a contiguous substring of `chars`, checking
each suffix for a prefix match (the model of `String.includes`). -/
def charsStartWith : List Char → List Char → Bool
  | [], _ => true
  | _ :: _, [] => false
  | a :: as, b :: bs => a == b && charsStartWith as bs

/-- Substring occurrence on character lists. -/
def charsInclude (pat : List Char) : List Char → Bool
  | [] => pat.isEmpty
  | b :: bs => charsStartWith pat (b :: bs) || charsInclude pat bs

/-- The model of `s.includes(pat)` on strings. -/
def includesSubstr (s pat : String) : Bool :=
  charsInclude pat.toList s.toList

/-- The capacity test of lines 470-473 of the source: a present `errors`
array whose first element has a truthy `message` that includes the
allocator no-instances text. -/
def isNoInstancesResponse (resp : AllocResponse) : Bool :=
  match resp.errors with
  | some (e :: _) =>
      match e.message with
      | some m => m ≠ "" && includesSubstr m "no longer any instances available"
      | none => false
  | _ => false

/-- The expression `response.data.errors[0]?.message || "Unknown error"`
of line 482. -/
def firstErrorMessage (errs : List AllocError) : String :=
  match errs with
  | e :: _ =>
      match e.message with
      | some m => if m ≠ "" then m else "Unknown error"
      | none => "Unknown error"
  | [] => "Unknown error"

/-- Outcome of one provisioning attempt, tagged by which branch of the
classification inside `attemptRunPodLaunch` ran, and carrying either the
returned pod id or the message pushed onto the error list. -/
inductive AttemptResult where
  | success (podId : String) : AttemptResult
  | capacityExhausted (msg : String) : AttemptResult
  | otherError (msg : String) : AttemptResult
  deriving DecidableEq

/-- The message recorded for a non-successful attempt. -/
def AttemptResult.failMsg : AttemptResult → String
  | .success _ => ""
  | .capacityExhausted m => m
  | .otherError m => m

/-- Classification of one allocator result for the candidate numbered
`index` with configuration `cfg` in datacenter `dc`, following lines
469-505 of the source. -/
def classifyAttempt (index : Nat) (cfg : RunPodConfig) (dc : DatacenterConfig) :
    AllocResult → AttemptResult
  | Except.error emsg =>
      .otherError ("Failed to deploy with config " ++ toString index ++
        " in datacenter " ++ dc.id ++ ": " ++ emsg)
  | Except.ok resp =>
      if isNoInstancesResponse resp then
        .capacityExhausted ("No instances available in datacenter " ++ dc.id ++
          " for GPU type: " ++ cfg.gpuTypeId)
      else
        match resp.errors with
        | some errs =>
            .otherError ("Error deploying pod with config " ++ toString index ++
              " in datacenter " ++ dc.id ++ ": " ++ firstErrorMessage errs)
        | none =>
            match resp.podId with
            | some pid =>
                if pid ≠ "" then .success pid
                else .otherError ("Pod ID not found in response for config " ++
                  toString index ++ " in datacenter " ++ dc.id)
            | none =>
                .otherError ("Pod ID not found in response for config " ++
                  toString index ++ " in datacenter " ++ dc.id)

/-- The allocator results on which an attempt succeeds: no `errors`
field and a truthy pod id.  Success, unlike the recorded message, does
not depend on which candidate was tried. -/
def allocSucceeds : AllocResult → Option String
  | Except.error _ => none
  | Except.ok resp =>
      match resp.errors with
      | some _ => none
      | none =>
          match resp.podId with
          | some pid => if pid ≠ "" then some pid else none
          | none => none

/-- Whether an allocator result is the allocator-reported no-capacity
case. -/
def isCapacityResult : AllocResult → Bool
  | Except.error _ => false
  | Except.ok resp => isNoInstancesResponse resp

/-- The environment variables read by `attemptRunPodLaunch`; `none`
models an unset variable. -/
structure ProvisionEnv where
  openaiApiKey : Option String
  elevenlabsApiKey : Option String
  humeApiKey : Option String
  cartesiaApiKey : Option String
  myAwsAccessKeyId : Option String
  myAwsSecretAccessKey : Option String
  myAwsRegion : Option String
  cloudwatchLogGroup : Option String
  sphinxWhisperDevice : Option String
  sphinxRepoId : Option String
  defaultVoiceId : Option String
  defaultTtsModel : Option String
  defaultTtsSpeed : Option String
  sphinxTemplateId : Option String

/-- The default TTS configuration object of lines 390-396; `speed` is a
string when the environment variable is truthy and the number `1.0`
otherwise. -/
def defaultTtsJson (env : ProvisionEnv) : Json :=
  .obj [("provider", .str "cartesia"),
    ("voiceId", .str (orDefault env.defaultVoiceId "ec58877e-44ae-4581-9078-a04225d42bd4")),
    ("model", .str (orDefault env.defaultTtsModel "sonic-turbo-2025-03-07")),
    ("speed", match env.defaultTtsSpeed with
      | some s => if s ≠ "" then .str s else .num 1
      | none => .num 1),
    ("emotion", .null)]

/-- The value `formattedTtsConfig` of line 389: the JSON text wrapping
the caller TTS configuration, or the default one when that is falsy. -/
def formattedTtsConfig (env : ProvisionEnv) (ttsConfig : Option Json) : String :=
  Json.stringify (.obj [("tts", jsOr ttsConfig (defaultTtsJson env))])

/-- The content of one GraphQL `podFindAndDeployOnDemand` request, with
the environment bag of lines 432-448 flattened into named fields. -/
structure ProvisionRequest where
  templateId : String
  gpuCount : Nat
  volumeInGb : Nat
  containerDiskInGb : Nat
  minVcpuCount : Nat
  minMemoryInGb : Nat
  gpuTypeId : String
  dataCenterId : String
  networkVolumeId : String
  name : String
  dailyRoomUrl : String
  dailyToken : String
  identifier : String
  openaiApiKey : String
  elevenlabsApiKey : String
  humeApiKey : String
  cartesiaApiKey : String
  ttsConfig : String
  awsAccessKeyId : String
  awsSecretAccessKey : String
  awsRegion : String
  cloudwatchLogGroup : String
  sphinxWhisperDevice : String
  sphinxMountPoint : String
  sphinxRepoId : String
  deriving DecidableEq

/-- The per-call data fixed before the fallback loop starts (lines
369-398): environment values, room credentials, the unique identifier
and the base64 TTS payload. -/
structure RequestContext where
  env : ProvisionEnv
  roomUrl : String
  token : String
  identifier : String
  base64Tts : String

/-- The request built for one candidate (lines 418-453). -/
def mkProvisionRequest (ctx : RequestContext) (cfg : RunPodConfig)
    (dc : DatacenterConfig) : ProvisionRequest :=
  { templateId := jsStr ctx.env.sphinxTemplateId
    gpuCount := 1
    volumeInGb := 0
    containerDiskInGb := 40
    minVcpuCount := cfg.minVcpuCount
    minMemoryInGb := cfg.minMemoryInGb
    gpuTypeId := cfg.gpuTypeId
    dataCenterId := dc.id
    networkVolumeId := dc.networkVolumeId
    name := "sphinx-bot-" ++ ctx.identifier
    dailyRoomUrl := ctx.roomUrl
    dailyToken := ctx.token
    identifier := ctx.identifier
    openaiApiKey := orDefault ctx.env.openaiApiKey ""
    elevenlabsApiKey := orDefault ctx.env.elevenlabsApiKey ""
    humeApiKey := orDefault ctx.env.humeApiKey ""
    cartesiaApiKey := orDefault ctx.env.cartesiaApiKey ""
    ttsConfig := ctx.base64Tts
    awsAccessKeyId := orDefault ctx.env.myAwsAccessKeyId ""
    awsSecretAccessKey := orDefault ctx.env.myAwsSecretAccessKey ""
    awsRegion := orDefault ctx.env.myAwsRegion "us-east-1"
    cloudwatchLogGroup := orDefault ctx.env.cloudwatchLogGroup "/sphinx-voice-bot"
    sphinxWhisperDevice := orDefault ctx.env.sphinxWhisperDevice "cuda"
    sphinxMountPoint := "/workspace"
    sphinxRepoId := orDefault ctx.env.sphinxRepoId "" }

/-- One candidate of the fallback search: the configuration index, the
configuration and the datacenter. -/
abbrev Candidate := Nat × RunPodConfig × DatacenterConfig

/-- The candidate sequence of the two nested loops of lines 404-409:
configurations outer in the given order, datacenters inner in the given
order. -/
def candidateList (podConfigs : List RunPodConfig)
    (datacenterConfigs : List DatacenterConfig) : List Candidate :=
  podConfigs.enum.flatMap (fun p => datacenterConfigs.map (fun d => (p.1, p.2, d)))

/-- The nested fallback loop flattened over `candidateList`: it returns
the first successful pod id if any, the list of error messages pushed so
far, and the ordered trace of allocator requests issued.  `n` is the
index of the next allocator call. -/
def attemptLoop (alloc : Nat → AllocResult) (ctx : RequestContext) :
    List Candidate → Nat → Option String × List String × List ProvisionRequest
  | [], _ => (none, [], [])
  | (index, cfg, dc) :: rest, n =>
      let req := mkProvisionRequest ctx cfg dc
      match classifyAttempt index cfg dc (alloc n) with
      | .success pid => (some pid, [], [req])
      | .capacityExhausted msg =>
          let r := attemptLoop alloc ctx rest (n + 1)
          (r.1, msg :: r.2.1, req :: r.2.2)
      | .otherError msg =>
          let r := attemptLoop alloc ctx rest (n + 1)
          (r.1, msg :: r.2.1, req :: r.2.2)

/-- The two errors `attemptRunPodLaunch` can throw: the empty-list guard
of line 366 and the aggregated exhaustion error of line 512. -/
inductive LaunchError where
  | noConfigs : LaunchError
  | exhausted (attempts : List String) : LaunchError
  deriving DecidableEq

/-- The `Error.message` text the handler observes for each error. -/
def LaunchError.message : LaunchError → String
  | .noConfigs => "No configurations available to try"
  | .exhausted attempts =>
      "No instances available for any configured options. Errors encountered: " ++
        String.intercalate "; " attempts

/-- The context `attemptRunPodLaunch` fixes once, before its loop. -/
def launchContext (env : ProvisionEnv) (uuid roomUrl token : String)
    (ttsConfig : Option Json) : RequestContext :=
  { env := env, roomUrl := roomUrl, token := token,
    identifier := "pod-" ++ uuid,
    base64Tts := base64Encode (formattedTtsConfig env ttsConfig) }

/-- Model of `attemptRunPodLaunch` (lines 358-513).  The allocator is an
explicit input mapping the index of each network call to its outcome;
the random uuid is an explicit input.  The function returns the thrown
error or the returned pod id, together with the ordered trace of
allocator requests issued. -/
def attemptRunPodLaunch (env : ProvisionEnv) (uuid : String)
    (roomUrl token : String) (ttsConfig : Option Json)
    (podConfigs : List RunPodConfig) (datacenterConfigs : List DatacenterConfig)
    (alloc : Nat → AllocResult) :
    Except LaunchError String × List ProvisionRequest :=
  if podConfigs.length = 0 then (.error .noConfigs, [])
  else
    let ctx := launchContext env uuid roomUrl token ttsConfig
    let r := attemptLoop alloc ctx (candidateList podConfigs datacenterConfigs) 0
    match r.1 with
    | some pid => (.ok pid, r.2.2)
    | none => (.error (.exhausted r.2.1), r.2.2)

/-- The datacenter list of lines 266-275, in source order. -/
def datacenterConfigs : List DatacenterConfig :=
  [{ id := "US-CA-2", networkVolumeId := "2asfjjhdxl" },
   { id := "US-WA-1", networkVolumeId := "z3guhr3kq7" },
   { id := "US-TX-3", networkVolumeId := "753enpqqhg" },
   { id := "US-IL-1", networkVolumeId := "pwsi7066z6" },
   { id := "US-GA-2", networkVolumeId := "oezj4md6us" },
   { id := "CA-MTL-1", networkVolumeId := "220xq1cw3q" },
   { id := "CA-MTL-3", networkVolumeId := "2kqbh7542h" }]

/-- The hardware preference list of lines 278-349, in source order. -/
def podConfigs : List RunPodConfig :=
  [{ gpuTypeId := "NVIDIA RTX 4000 Ada Generation", minVcpuCount := 8, minMemoryInGb := 24 },
   { gpuTypeId := "NVIDIA RTX 4000 Ada Generation", minVcpuCount := 4, minMemoryInGb := 24 },
   { gpuTypeId := "NVIDIA RTX 4000 Ada Generation", minVcpuCount := 4, minMemoryInGb := 15 },
   { gpuTypeId := "NVIDIA RTX 6000 Ada Generation", minVcpuCount := 4, minMemoryInGb := 15 },
   { gpuTypeId := "NVIDIA RTX A4500", minVcpuCount := 4, minMemoryInGb := 15 },
   { gpuTypeId := "NVIDIA RTX A5000", minVcpuCount := 4, minMemoryInGb := 15 },
   { gpuTypeId := "NVIDIA A40", minVcpuCount := 4, minMemoryInGb := 15 },
   { gpuTypeId := "NVIDIA GeForce RTX 4090", minVcpuCount := 4, minMemoryInGb := 24 },
   { gpuTypeId := "NVIDIA GeForce RTX 4090", minVcpuCount := 4, minMemoryInGb := 15 },
   { gpuTypeId := "NVIDIA GeForce RTX 5080", minVcpuCount := 4, minMemoryInGb := 24 },
   { gpuTypeId := "NVIDIA GeForce RTX 4080 SUPER", minVcpuCount := 4, minMemoryInGb := 24 },
   { gpuTypeId := "NVIDIA GeForce RTX 4080", minVcpuCount := 4, minMemoryInGb := 24 },
   { gpuTypeId := "NVIDIA GeForce RTX 4070 Ti", minVcpuCount := 4, minMemoryInGb := 16 },
   { gpuTypeId := "NVIDIA GeForce RTX 3090 Ti", minVcpuCount := 4, minMemoryInGb := 16 }]

/-- Model of `launchRunPodInstance` (lines 264-353): the fallback launch
over the statically configured lists. -/
def launchRunPodInstance (env : ProvisionEnv) (uuid : String)
    (roomUrl token : String) (ttsConfig : Option Json)
    (alloc : Nat → AllocResult) :
    Except LaunchError String × List ProvisionRequest :=
  attemptRunPodLaunch env uuid roomUrl token ttsConfig podConfigs
    datacenterConfigs alloc

/-- A Daily room with its meeting token, as `createDailyRoom` returns. -/
structure DailyRoom where
  roomUrl : String
  token : String
  deriving DecidableEq

/-- The JSON body the handler sends back. -/
inductive ApiBody where
  | ok (room_url : String) (token : String) : ApiBody
  | err (error : String) : ApiBody
  deriving DecidableEq

/-- An HTTP reply: status code and JSON body. -/
structure HttpReply where
  status : Nat
  body : ApiBody
  deriving DecidableEq

/-- One external call made while serving a request. -/
inductive ExtCall where
  | roomCreate : ExtCall
  | allocCall (req : ProvisionRequest) : ExtCall
  deriving DecidableEq

/-- Model of the API `handler` (lines 519-610).  The request method, the
credentials, the outcome of `createDailyRoom` and the allocator are
explicit inputs; the result is the HTTP reply together with the ordered
trace of external calls made.  The 60-second watchdog reply is not
modelled. -/
def handler (method : String) (runpodApiKey dailyApiKey : Option String)
    (roomResult : Except String DailyRoom) (env : ProvisionEnv)
    (uuid : String) (tts : Option Json) (alloc : Nat → AllocResult) :
    HttpReply × List ExtCall :=
  if method ≠ "POST" then
    ({ status := 405, body := .err "Method not allowed" }, [])
  else if !strOptTruthy runpodApiKey || !strOptTruthy dailyApiKey then
    ({ status := 500,
       body := .err "API keys not configured. Please set RUNPOD_API_KEY and DAILY_API_KEY environment variables." },
     [])
  else
    match roomResult with
    | .error _ =>
        ({ status := 500,
           body := .err "Failed to create Daily room. Please try again later." },
         [.roomCreate])
    | .ok room =>
        let r := launchRunPodInstance env uuid room.roomUrl room.token tts alloc
        let calls := ExtCall.roomCreate :: r.2.map ExtCall.allocCall
        match r.1 with
        | .ok _ => ({ status := 200, body := .ok room.roomUrl room.token }, calls)
        | .error e =>
            if e.message = "No instances available for any of the configured options" then
              ({ status := 503,
                 body := .err "No GPU instances are currently available. Please try again later." },
               calls)
            else
              ({ status := 500,
                 body := .err "Failed to launch instance. Please try again later." },
               calls)

/-- A map threading the running allocator-call index through a list. -/
def mapFrom (f : Nat → α → β) : Nat → List α → List β
  | _, [] => []
  | n, a :: l => f n a :: mapFrom f (n + 1) l

/-- The message that the attempt at call index `n` on candidate `c`
records when it fails. -/
def candFailMsg (alloc : Nat → AllocResult) (n : Nat) (c : Candidate) : String :=
  (classifyAttempt c.1 c.2.1 c.2.2 (alloc n)).failMsg

/-- The request a candidate produces under a fixed context. -/
def reqOf (ctx : RequestContext) (c : Candidate) : ProvisionRequest :=
  mkProvisionRequest ctx c.2.1 c.2.2

/-- A sample environment with every variable unset. -/
def envNone : ProvisionEnv :=
  { openaiApiKey := none, elevenlabsApiKey := none, humeApiKey := none,
    cartesiaApiKey := none, myAwsAccessKeyId := none, myAwsSecretAccessKey := none,
    myAwsRegion := none, cloudwatchLogGroup := none, sphinxWhisperDevice := none,
    sphinxRepoId := none, defaultVoiceId := none, defaultTtsModel := none,
    defaultTtsSpeed := none, sphinxTemplateId := none }

/-- A sample datacenter. -/
def dcSample : DatacenterConfig := { id := "US-CA-2", networkVolumeId := "2asfjjhdxl" }

/-- A second sample datacenter. -/
def dcSampleB : DatacenterConfig := { id := "US-WA-1", networkVolumeId := "z3guhr3kq7" }

/-- A sample hardware configuration. -/
def cfgSample : RunPodConfig :=
  { gpuTypeId := "NVIDIA RTX 4000 Ada Generation", minVcpuCount := 8, minMemoryInGb := 24 }

/-- A sample request context. -/
def ctxSample : RequestContext := launchContext envNone "u" "r" "t" none

/-- An allocator whose calls all fail at the transport level. -/
def allocFail : Nat → AllocResult := fun _ => Except.error "network unreachable"

/-- An allocator that always reports the RunPod no-instances error. -/
def allocNoCapacity : Nat → AllocResult := fun _ =>
  Except.ok
    { errors := some [{ message := some "There are no longer any instances available with the requested specifications. Please refresh and try again." }],
      podId := none }

/-- An allocator that always deploys a pod with the given id. -/
def allocPod (pid : String) : Nat → AllocResult := fun _ =>
  Except.ok { errors := none, podId := some pid }

/-- An allocator that succeeds exactly on the call of the given index. -/
def allocOkAt (k : Nat) (pid : String) : Nat → AllocResult := fun n =>
  if n = k then Except.ok { errors := none, podId := some pid }
  else Except.error "network unreachable"

/-- An attempt is classified as a success exactly when the allocator
result carries no `errors` field and a truthy pod id; which candidate
was being tried does not matter. -/
lemma classify_eq_success_iff (index : Nat) (cfg : RunPodConfig)
    (dc : DatacenterConfig) (res : AllocResult) (pid : String) :
    classifyAttempt index cfg dc res = .success pid ↔ allocSucceeds res = some pid := by
  cases res with
  | error e => simp [classifyAttempt, allocSucceeds]
  | ok resp =>
    cases hresp : resp.errors with
    | some errs =>
      have hno : allocSucceeds (Except.ok resp) = none := by
        simp [allocSucceeds, hresp]
      rw [hno]
      simp only [classifyAttempt, hresp]
      split <;> simp
    | none =>
      have hcap : isNoInstancesResponse resp = false := by
        simp [isNoInstancesResponse, hresp]
      cases hpid : resp.podId with
      | some p =>
        simp only [classifyAttempt, allocSucceeds, hresp, hcap, hpid,
          Bool.false_eq_true, if_false]
        by_cases hp : p = "" <;> simp [hp]
      | none =>
        simp [classifyAttempt, allocSucceeds, hresp, hcap, hpid]

/-- The length of an index-threading map. -/
lemma mapFrom_length (f : Nat → α → β) :
    ∀ (n : Nat) (l : List α), (mapFrom f n l).length = l.length
  | _, [] => rfl
  | n, _ :: l => by simp [mapFrom, mapFrom_length f (n + 1) l]

/-- A candidate list built from an empty configuration list is empty. -/
lemma candidateList_nil (dcs : List DatacenterConfig) : candidateList [] dcs = [] := rfl

/-- A nonempty candidate list needs a nonempty configuration list. -/
lemma pcs_ne_nil_of_candidateList_ne_nil (pcs : List RunPodConfig)
    (dcs : List DatacenterConfig) (h : candidateList pcs dcs ≠ []) : pcs ≠ [] := by
  intro hp
  exact h (hp ▸ candidateList_nil dcs)

/-- When the configuration list is nonempty, `attemptRunPodLaunch` is
the flattened loop with the final aggregation. -/
lemma attemptRunPodLaunch_eq (env : ProvisionEnv) (uuid roomUrl token : String)
    (tts : Option Json) (pcs : List RunPodConfig) (dcs : List DatacenterConfig)
    (alloc : Nat → AllocResult) (h : pcs.length ≠ 0) :
    attemptRunPodLaunch env uuid roomUrl token tts pcs dcs alloc =
      (match (attemptLoop alloc (launchContext env uuid roomUrl token tts)
          (candidateList pcs dcs) 0).1 with
       | some pid => Except.ok pid
       | none => Except.error (LaunchError.exhausted
           (attemptLoop alloc (launchContext env uuid roomUrl token tts)
             (candidateList pcs dcs) 0).2.1),
       (attemptLoop alloc (launchContext env uuid roomUrl token tts)
         (candidateList pcs dcs) 0).2.2) := by
  simp only [attemptRunPodLaunch, if_neg h]
  cases hx : (attemptLoop alloc (launchContext env uuid roomUrl token tts)
    (candidateList pcs dcs) 0).1 <;> rfl

/-- When every allocator call for a candidate segment fails, the loop
records one message per candidate, in order, and issues one request per
candidate, in order. -/
lemma attemptLoop_all_fail (alloc : Nat → AllocResult) (ctx : RequestContext) :
    ∀ (cands : List Candidate) (n : Nat),
      (∀ i, i < cands.length → allocSucceeds (alloc (n + i)) = none) →
      attemptLoop alloc ctx cands n =
        (none, mapFrom (candFailMsg alloc) n cands, cands.map (reqOf ctx)) := by
  intro cands
  induction cands with
  | nil => intro n _; simp [attemptLoop, mapFrom]
  | cons c rest ih =>
    obtain ⟨index, cfg, dc⟩ := c
    intro n h
    have h0 : allocSucceeds (alloc n) = none := by
      simpa using h 0 (by simp)
    have hrest := ih (n + 1) (fun i hi => by
      have := h (i + 1) (by simpa using Nat.succ_lt_succ hi)
      rwa [show n + (i + 1) = n + 1 + i by omega] at this)
    cases hc : classifyAttempt index cfg dc (alloc n) with
    | success pid =>
      have := (classify_eq_success_iff index cfg dc (alloc n) pid).1 hc
      rw [h0] at this
      exact absurd this (by simp)
    | capacityExhausted m =>
      simp [attemptLoop, hc, hrest, mapFrom, candFailMsg, AttemptResult.failMsg, reqOf]
    | otherError m =>
      simp [attemptLoop, hc, hrest, mapFrom, candFailMsg, AttemptResult.failMsg, reqOf]

/-- When every allocator call before index `j` fails and the call at
index `j` succeeds, the loop returns that pod id, the messages of the
first `j` candidates, and the requests of the first `j + 1` candidates
only. -/
lemma attemptLoop_first_success (alloc : Nat → AllocResult) (ctx : RequestContext) :
    ∀ (cands : List Candidate) (n j : Nat) (pid : String), j < cands.length →
      (∀ i, i < j → allocSucceeds (alloc (n + i)) = none) →
      allocSucceeds (alloc (n + j)) = some pid →
      attemptLoop alloc ctx cands n =
        (some pid, mapFrom (candFailMsg alloc) n (cands.take j),
         (cands.take (j + 1)).map (reqOf ctx)) := by
  intro cands
  induction cands with
  | nil => intro n j pid hj _ _; exact absurd hj (by simp)
  | cons c rest ih =>
    obtain ⟨index, cfg, dc⟩ := c
    intro n j pid hj hf hs
    cases j with
    | zero =>
      have hsucc : classifyAttempt index cfg dc (alloc n) = .success pid :=
        (classify_eq_success_iff index cfg dc (alloc n) pid).2 (by simpa using hs)
      simp [attemptLoop, hsucc, mapFrom, reqOf]
    | succ j =>
      have h0 : allocSucceeds (alloc n) = none := by
        simpa using hf 0 (Nat.succ_pos _)
      have hrest := ih (n + 1) j pid (by simpa using Nat.lt_of_succ_lt_succ hj)
        (fun i hi => by
          have := hf (i + 1) (Nat.succ_lt_succ hi)
          rwa [show n + (i + 1) = n + 1 + i by omega] at this)
        (by rwa [show n + (j + 1) = n + 1 + j by omega] at hs)
      cases hc : classifyAttempt index cfg dc (alloc n) with
      | success pid2 =>
        have := (classify_eq_success_iff index cfg dc (alloc n) pid2).1 hc
        rw [h0] at this
        exact absurd this (by simp)
      | capacityExhausted m =>
        simp [attemptLoop, hc, hrest, mapFrom, candFailMsg, AttemptResult.failMsg,
          reqOf, List.take_succ_cons]
      | otherError m =>
        simp [attemptLoop, hc, hrest, mapFrom, candFailMsg, AttemptResult.failMsg,
          reqOf, List.take_succ_cons]

/-- The request trace of the loop is always the image of a prefix of the
candidate list, and the whole list exactly when no attempt succeeded. -/
lemma attemptLoop_trace_shape (alloc : Nat → AllocResult) (ctx : RequestContext) :
    ∀ (cands : List Candidate) (n : Nat),
      ∃ m, m ≤ cands.length ∧
        (attemptLoop alloc ctx cands n).2.2 = (cands.take m).map (reqOf ctx) ∧
        ((attemptLoop alloc ctx cands n).1 = none → m = cands.length) := by
  intro cands
  induction cands with
  | nil => intro n; exact ⟨0, by simp [attemptLoop]⟩
  | cons c rest ih =>
    obtain ⟨index, cfg, dc⟩ := c
    intro n
    cases hc : classifyAttempt index cfg dc (alloc n) with
    | success pid =>
      refine ⟨1, by simp, ?_, ?_⟩
      · simp [attemptLoop, hc, reqOf]
      · intro h
        rw [show (attemptLoop alloc ctx ((index, cfg, dc) :: rest) n).1 = some pid by
          simp [attemptLoop, hc]] at h
        exact absurd h (by simp)
    | capacityExhausted m =>
      obtain ⟨m', hle, htr, hnone⟩ := ih (n + 1)
      refine ⟨m' + 1, by simpa using Nat.succ_le_succ hle, ?_, ?_⟩
      · simp [attemptLoop, hc, htr, reqOf, List.take_succ_cons]
      · intro h
        rw [show (attemptLoop alloc ctx ((index, cfg, dc) :: rest) n).1 =
          (attemptLoop alloc ctx rest (n + 1)).1 by simp [attemptLoop, hc]] at h
        simp [List.length_cons, hnone h]
    | otherError m =>
      obtain ⟨m', hle, htr, hnone⟩ := ih (n + 1)
      refine ⟨m' + 1, by simpa using Nat.succ_le_succ hle, ?_, ?_⟩
      · simp [attemptLoop, hc, htr, reqOf, List.take_succ_cons]
      · intro h
        rw [show (attemptLoop alloc ctx ((index, cfg, dc) :: rest) n).1 =
          (attemptLoop alloc ctx rest (n + 1)).1 by simp [attemptLoop, hc]] at h
        simp [List.length_cons, hnone h]

/-- Every request in the trace of `attemptRunPodLaunch` is the request
of some candidate under the once-fixed context. -/
lemma mem_launch_trace (env : ProvisionEnv) (uuid roomUrl token : String)
    (tts : Option Json) (pcs : List RunPodConfig) (dcs : List DatacenterConfig)
    (alloc : Nat → AllocResult) (r : ProvisionRequest)
    (hr : r ∈ (attemptRunPodLaunch env uuid roomUrl token tts pcs dcs alloc).2) :
    ∃ c, r = reqOf (launchContext env uuid roomUrl token tts) c := by
  by_cases hp : pcs.length = 0
  · rw [attemptRunPodLaunch, if_pos hp] at hr
    exact absurd hr (by simp)
  · rw [attemptRunPodLaunch_eq env uuid roomUrl token tts pcs dcs alloc hp] at hr
    obtain ⟨m, _, htr, _⟩ := attemptLoop_trace_shape alloc
      (launchContext env uuid roomUrl token tts) (candidateList pcs dcs) 0
    rw [htr] at hr
    obtain ⟨c, _, hc⟩ := List.mem_map.1 hr
    exact ⟨c, hc.symm⟩

set_option maxRecDepth 100000

/-- C1: the specification maps provisioning exhaustion to HTTP 503.  On
the code, the aggregated error thrown at line 512 has message
"No instances available for any configured options. Errors encountered: ..."
while the handler at line 573 compares against the string
"No instances available for any of the configured options"; the two
never match, so the 503 branch is unreachable and the handler replies
with the generic 500.  Evaluated here on a request in which every
allocator call reports the no-instances error. -/
theorem handler_exhaustion_replies_500_not_503 :
    (handler "POST" (some "rk") (some "dk")
        (Except.ok { roomUrl := "https://example.daily.co/r", token := "tok" })
        envNone "u" none allocNoCapacity).1.status = 500 ∧
    ¬ (handler "POST" (some "rk") (some "dk")
        (Except.ok { roomUrl := "https://example.daily.co/r", token := "tok" })
        envNone "u" none allocNoCapacity).1.status = 503 := by
  have h : (handler "POST" (some "rk") (some "dk")
      (Except.ok { roomUrl := "https://example.daily.co/r", token := "tok" })
      envNone "u" none allocNoCapacity).1.status = 500 := by decide
  exact ⟨h, by rw [h]; decide⟩

/-- C2: when the allocator fails on every call with index below `j` and
returns a worker id on call `j` (attempt number k = j + 1 of the
claim), `attemptRunPodLaunch` returns exactly that worker id, issues
exactly j + 1 allocator requests, and those are the requests of the
first j + 1 candidates only, so no candidate after the successful one
is tried. -/
theorem provision_short_circuit_first_success
    (env : ProvisionEnv) (uuid roomUrl token : String) (tts : Option Json)
    (pcs : List RunPodConfig) (dcs : List DatacenterConfig)
    (alloc : Nat → AllocResult) (j : Nat) (pid : String)
    (hj : j < (candidateList pcs dcs).length)
    (hfail : ∀ i, i < j → allocSucceeds (alloc i) = none)
    (hsucc : allocSucceeds (alloc j) = some pid) :
    (attemptRunPodLaunch env uuid roomUrl token tts pcs dcs alloc).1 = Except.ok pid ∧
    (attemptRunPodLaunch env uuid roomUrl token tts pcs dcs alloc).2.length = j + 1 ∧
    (attemptRunPodLaunch env uuid roomUrl token tts pcs dcs alloc).2 =
      ((candidateList pcs dcs).take (j + 1)).map
        (reqOf (launchContext env uuid roomUrl token tts)) := by
  have hp : pcs.length ≠ 0 := by
    intro h0
    rw [List.length_eq_zero] at h0
    rw [h0, candidateList_nil] at hj
    exact absurd hj (by simp)
  have hl := attemptLoop_first_success alloc (launchContext env uuid roomUrl token tts)
    (candidateList pcs dcs) 0 j pid hj
    (fun i hi => by simpa using hfail i hi)
    (by simpa using hsucc)
  rw [attemptRunPodLaunch_eq env uuid roomUrl token tts pcs dcs alloc hp, hl]
  refine ⟨rfl, ?_, rfl⟩
  simp only [List.length_map, List.length_take]
  omega

/-- Witness for C2: a two-candidate search whose second allocator call
succeeds. -/
theorem provision_short_circuit_first_success_witness :
    1 < (candidateList [cfgSample] [dcSample, dcSampleB]).length ∧
    (attemptRunPodLaunch envNone "u" "r" "t" none [cfgSample] [dcSample, dcSampleB]
        (allocOkAt 1 "pod-1")).1 = Except.ok "pod-1" ∧
    (attemptRunPodLaunch envNone "u" "r" "t" none [cfgSample] [dcSample, dcSampleB]
        (allocOkAt 1 "pod-1")).2.length = 1 + 1 :=
  ⟨by decide,
   (provision_short_circuit_first_success envNone "u" "r" "t" none [cfgSample]
      [dcSample, dcSampleB] (allocOkAt 1 "pod-1") 1 "pod-1" (by decide) (by decide)
      (by decide)).1,
   (provision_short_circuit_first_success envNone "u" "r" "t" none [cfgSample]
      [dcSample, dcSampleB] (allocOkAt 1 "pod-1") 1 "pod-1" (by decide) (by decide)
      (by decide)).2.1⟩

/-- C3: when a nonempty candidate list is exhausted with every attempt
failing, the launch fails with the aggregated error whose attempt log
holds, at each position i, the message recorded for the i-th tried
candidate — one entry per attempt, in try order — and whose text is the
fixed prefix followed by the join of all recorded messages. -/
theorem provision_exhaustion_error_log
    (env : ProvisionEnv) (uuid roomUrl token : String) (tts : Option Json)
    (pcs : List RunPodConfig) (dcs : List DatacenterConfig)
    (alloc : Nat → AllocResult)
    (hne : candidateList pcs dcs ≠ [])
    (hfail : ∀ i, i < (candidateList pcs dcs).length → allocSucceeds (alloc i) = none) :
    (attemptRunPodLaunch env uuid roomUrl token tts pcs dcs alloc).1 =
      Except.error (LaunchError.exhausted
        (mapFrom (candFailMsg alloc) 0 (candidateList pcs dcs))) ∧
    (mapFrom (candFailMsg alloc) 0 (candidateList pcs dcs)).length =
      (candidateList pcs dcs).length ∧
    (LaunchError.exhausted (mapFrom (candFailMsg alloc) 0 (candidateList pcs dcs))).message =
      "No instances available for any configured options. Errors encountered: " ++
        String.intercalate "; " (mapFrom (candFailMsg alloc) 0 (candidateList pcs dcs)) := by
  have hp : pcs.length ≠ 0 := by
    intro h0
    rw [List.length_eq_zero] at h0
    exact hne (by rw [h0]; exact candidateList_nil dcs)
  have hl := attemptLoop_all_fail alloc (launchContext env uuid roomUrl token tts)
    (candidateList pcs dcs) 0 (fun i hi => by simpa using hfail i hi)
  rw [attemptRunPodLaunch_eq env uuid roomUrl token tts pcs dcs alloc hp, hl]
  exact ⟨rfl, mapFrom_length _ _ _, rfl⟩

/-- Witness for C3: a one-candidate search whose only call fails at the
transport level. -/
theorem provision_exhaustion_error_log_witness :
    candidateList [cfgSample] [dcSample] ≠ [] ∧
    (attemptRunPodLaunch envNone "u" "r" "t" none [cfgSample] [dcSample] allocFail).1 =
      Except.error (LaunchError.exhausted
        (mapFrom (candFailMsg allocFail) 0 (candidateList [cfgSample] [dcSample]))) :=
  ⟨by decide,
   (provision_exhaustion_error_log envNone "u" "r" "t" none [cfgSample] [dcSample]
      allocFail (by decide) (by decide)).1⟩

/-- C4 counterexample: with an empty configuration list the launch does
not fail with the aggregated capacity error carrying an empty attempt
log; it fails with the distinct no-configurations guard error of line
366, a different error with a different message. -/
theorem provision_empty_configs_error_is_not_exhausted :
    (attemptRunPodLaunch envNone "u" "r" "t" none [] [dcSample] allocFail).1 ≠
      Except.error (LaunchError.exhausted []) := by
  intro h
  have h1 : (attemptRunPodLaunch envNone "u" "r" "t" none [] [dcSample] allocFail).1 =
      Except.error LaunchError.noConfigs := rfl
  rw [h1] at h
  simp at h

/-- C4 amended: with an empty candidate list the launch fails
immediately and issues no allocator request; when the configuration
list itself is empty the error is the dedicated no-configurations
guard (which carries no attempt log), and when only the datacenter
list is empty it is the aggregated error with an empty attempt log. -/
theorem provision_empty_candidates
    (env : ProvisionEnv) (uuid roomUrl token : String) (tts : Option Json)
    (pcs : List RunPodConfig) (dcs : List DatacenterConfig)
    (alloc : Nat → AllocResult)
    (hempty : candidateList pcs dcs = []) :
    (attemptRunPodLaunch env uuid roomUrl token tts pcs dcs alloc).2 = [] ∧
    (pcs = [] → (attemptRunPodLaunch env uuid roomUrl token tts pcs dcs alloc).1 =
      Except.error LaunchError.noConfigs) ∧
    (pcs ≠ [] → (attemptRunPodLaunch env uuid roomUrl token tts pcs dcs alloc).1 =
      Except.error (LaunchError.exhausted [])) := by
  by_cases hp : pcs.length = 0
  · have hpl : pcs = [] := List.length_eq_zero.1 hp
    exact ⟨by simp [attemptRunPodLaunch, hp], fun _ => by simp [attemptRunPodLaunch, hp],
      fun hne => absurd hpl hne⟩
  · have hpn : pcs ≠ [] := fun h => hp (by rw [h]; rfl)
    rw [attemptRunPodLaunch_eq env uuid roomUrl token tts pcs dcs alloc hp, hempty]
    exact ⟨rfl, fun h => absurd h hpn, fun _ => rfl⟩

/-- Witness for the amended C4: the empty configuration list with one
datacenter. -/
theorem provision_empty_candidates_witness :
    candidateList ([] : List RunPodConfig) [dcSample] = [] ∧
    (attemptRunPodLaunch envNone "u" "r" "t" none [] [dcSample] allocFail).2 = [] ∧
    (attemptRunPodLaunch envNone "u" "r" "t" none [] [dcSample] allocFail).1 =
      Except.error LaunchError.noConfigs :=
  ⟨rfl,
   (provision_empty_candidates envNone "u" "r" "t" none [] [dcSample] allocFail rfl).1,
   (provision_empty_candidates envNone "u" "r" "t" none [] [dcSample] allocFail rfl).2.1 rfl⟩

/-- C5: on a POST request with both credentials configured, if room
creation fails the handler replies 500 immediately and the only
external call in the trace is the room-creation attempt: the
provisioning engine is never invoked and zero allocator calls are
made. -/
theorem handler_room_failure_skips_provisioning
    (runpodKey dailyKey : Option String) (e : String) (env : ProvisionEnv)
    (uuid : String) (tts : Option Json) (alloc : Nat → AllocResult)
    (hrk : strOptTruthy runpodKey = true) (hdk : strOptTruthy dailyKey = true) :
    handler "POST" runpodKey dailyKey (Except.error e) env uuid tts alloc =
      ({ status := 500,
         body := .err "Failed to create Daily room. Please try again later." },
       [ExtCall.roomCreate]) := by
  simp [handler, hrk, hdk]

/-- Witness for C5 at concrete keys and a failing room service. -/
theorem handler_room_failure_skips_provisioning_witness :
    strOptTruthy (some "rk") = true ∧ strOptTruthy (some "dk") = true ∧
    handler "POST" (some "rk") (some "dk") (Except.error "boom") envNone "u" none allocFail =
      ({ status := 500,
         body := .err "Failed to create Daily room. Please try again later." },
       [ExtCall.roomCreate]) :=
  ⟨by decide, by decide,
   handler_room_failure_skips_provisioning (some "rk") (some "dk") "boom" envNone "u" none
     allocFail (by decide) (by decide)⟩

/-- C6: the launch walks the cross product of configurations (outer, in
the given order) and datacenters (inner, in the given order): its
request trace is the image, candidate by candidate, of a prefix of
`candidateList` — each candidate is requested at most once, in order,
never revisited — and when the launch fails the prefix is the whole
candidate list, exactly one request per candidate. -/
theorem provision_iterates_candidates_in_order
    (env : ProvisionEnv) (uuid roomUrl token : String) (tts : Option Json)
    (pcs : List RunPodConfig) (dcs : List DatacenterConfig)
    (alloc : Nat → AllocResult) (hp : pcs ≠ []) :
    ∃ m, m ≤ (candidateList pcs dcs).length ∧
      (attemptRunPodLaunch env uuid roomUrl token tts pcs dcs alloc).2 =
        ((candidateList pcs dcs).take m).map
          (reqOf (launchContext env uuid roomUrl token tts)) ∧
      (∀ err, (attemptRunPodLaunch env uuid roomUrl token tts pcs dcs alloc).1 =
          Except.error err → m = (candidateList pcs dcs).length) := by
  have hpl : pcs.length ≠ 0 := fun h => hp (List.length_eq_zero.1 h)
  obtain ⟨m, hle, htr, hnone⟩ := attemptLoop_trace_shape alloc
    (launchContext env uuid roomUrl token tts) (candidateList pcs dcs) 0
  rw [attemptRunPodLaunch_eq env uuid roomUrl token tts pcs dcs alloc hpl]
  refine ⟨m, hle, htr, ?_⟩
  intro err herr
  cases hx : (attemptLoop alloc (launchContext env uuid roomUrl token tts)
      (candidateList pcs dcs) 0).1 with
  | none => exact hnone hx
  | some pid => rw [hx] at herr; exact absurd herr (by simp)

/-- Witness for C6: a one-candidate search with a transport failure. -/
theorem provision_iterates_candidates_in_order_witness :
    ([cfgSample] : List RunPodConfig) ≠ [] ∧
    (∃ m, m ≤ (candidateList [cfgSample] [dcSample]).length ∧
      (attemptRunPodLaunch envNone "u" "r" "t" none [cfgSample] [dcSample] allocFail).2 =
        ((candidateList [cfgSample] [dcSample]).take m).map
          (reqOf (launchContext envNone "u" "r" "t" none)) ∧
      (∀ err, (attemptRunPodLaunch envNone "u" "r" "t" none [cfgSample] [dcSample]
          allocFail).1 = Except.error err →
        m = (candidateList [cfgSample] [dcSample]).length)) :=
  ⟨by decide,
   provision_iterates_candidates_in_order envNone "u" "r" "t" none [cfgSample] [dcSample]
     allocFail (by decide)⟩

/-- C7: classification of one allocator response.  When the response is
not a success, the loop records the branch message and continues with
the remaining candidates, prepending this request to the trace; a
response carrying the no-instances error text in its first error
message is classified as the capacity-exhausted case with its specific
message; any other reported error, any transport failure, and any
success response without a truthy pod id are classified as the
other-error case rather than returned. -/
theorem provision_classifies_responses
    (alloc : Nat → AllocResult) (ctx : RequestContext) (index : Nat)
    (cfg : RunPodConfig) (dc : DatacenterConfig) (rest : List Candidate) (n : Nat) :
    (allocSucceeds (alloc n) = none →
      attemptLoop alloc ctx ((index, cfg, dc) :: rest) n =
        ((attemptLoop alloc ctx rest (n + 1)).1,
         (classifyAttempt index cfg dc (alloc n)).failMsg ::
           (attemptLoop alloc ctx rest (n + 1)).2.1,
         mkProvisionRequest ctx cfg dc :: (attemptLoop alloc ctx rest (n + 1)).2.2)) ∧
    (isCapacityResult (alloc n) = true →
      classifyAttempt index cfg dc (alloc n) =
        AttemptResult.capacityExhausted ("No instances available in datacenter " ++
          dc.id ++ " for GPU type: " ++ cfg.gpuTypeId)) ∧
    (isCapacityResult (alloc n) = false → allocSucceeds (alloc n) = none →
      ∃ m, classifyAttempt index cfg dc (alloc n) = AttemptResult.otherError m) := by
  refine ⟨?_, ?_, ?_⟩
  · intro h0
    cases hc : classifyAttempt index cfg dc (alloc n) with
    | success pid =>
      have := (classify_eq_success_iff index cfg dc (alloc n) pid).1 hc
      rw [h0] at this
      exact absurd this (by simp)
    | capacityExhausted m => simp [attemptLoop, hc, AttemptResult.failMsg]
    | otherError m => simp [attemptLoop, hc, AttemptResult.failMsg]
  · intro h
    cases hres : alloc n with
    | error e => rw [hres] at h; exact absurd h (by simp [isCapacityResult])
    | ok resp =>
      rw [hres] at h
      have hni : isNoInstancesResponse resp = true := h
      simp [classifyAttempt, hni]
  · intro hcap hsucc
    cases hres : alloc n with
    | error e => exact ⟨_, rfl⟩
    | ok resp =>
      rw [hres] at hcap hsucc
      have hni : isNoInstancesResponse resp = false := hcap
      cases herrs : resp.errors with
      | some errs =>
        refine ⟨"Error deploying pod with config " ++ toString index ++
          " in datacenter " ++ dc.id ++ ": " ++ firstErrorMessage errs, ?_⟩
        simp [classifyAttempt, hni, herrs]
      | none =>
        cases hpid : resp.podId with
        | some p =>
          by_cases hps : p = ""
          · refine ⟨"Pod ID not found in response for config " ++ toString index ++
              " in datacenter " ++ dc.id, ?_⟩
            simp [classifyAttempt, hni, herrs, hpid, hps]
          · exfalso
            have hv : allocSucceeds (Except.ok resp) = some p := by
              simp [allocSucceeds, herrs, hpid, hps]
            rw [hsucc] at hv
            simp at hv
        | none =>
          refine ⟨"Pod ID not found in response for config " ++ toString index ++
            " in datacenter " ++ dc.id, ?_⟩
          simp [classifyAttempt, hni, herrs, hpid]

/-- Witness for C7: one candidate, transport failure on its call. -/
theorem provision_classifies_responses_witness :
    allocSucceeds (allocFail 0) = none ∧
    attemptLoop allocFail ctxSample [(0, cfgSample, dcSample)] 0 =
      ((attemptLoop allocFail ctxSample [] 1).1,
       (classifyAttempt 0 cfgSample dcSample (allocFail 0)).failMsg ::
         (attemptLoop allocFail ctxSample [] 1).2.1,
       mkProvisionRequest ctxSample cfgSample dcSample ::
         (attemptLoop allocFail ctxSample [] 1).2.2) :=
  ⟨rfl,
   (provision_classifies_responses allocFail ctxSample 0 cfgSample dcSample [] 0).1 rfl⟩

/-- C8: when room creation and provisioning both succeed, the handler
replies 200 with exactly the room URL and token room creation produced;
the pod id the engine returned is not part of the reply, and two runs
whose allocators both succeed — possibly with different pod ids —
produce the same reply. -/
theorem handler_success_reply_is_room_credentials
    (runpodKey dailyKey : Option String) (room : DailyRoom) (env : ProvisionEnv)
    (uuid : String) (tts : Option Json) (alloc alloc2 : Nat → AllocResult)
    (pid pid2 : String)
    (hrk : strOptTruthy runpodKey = true) (hdk : strOptTruthy dailyKey = true)
    (h1 : (launchRunPodInstance env uuid room.roomUrl room.token tts alloc).1 =
      Except.ok pid)
    (h2 : (launchRunPodInstance env uuid room.roomUrl room.token tts alloc2).1 =
      Except.ok pid2) :
    (handler "POST" runpodKey dailyKey (Except.ok room) env uuid tts alloc).1 =
      { status := 200, body := ApiBody.ok room.roomUrl room.token } ∧
    (handler "POST" runpodKey dailyKey (Except.ok room) env uuid tts alloc).1 =
      (handler "POST" runpodKey dailyKey (Except.ok room) env uuid tts alloc2).1 := by
  have hA : (handler "POST" runpodKey dailyKey (Except.ok room) env uuid tts alloc).1 =
      { status := 200, body := ApiBody.ok room.roomUrl room.token } := by
    simp [handler, hrk, hdk, h1]
  have hB : (handler "POST" runpodKey dailyKey (Except.ok room) env uuid tts alloc2).1 =
      { status := 200, body := ApiBody.ok room.roomUrl room.token } := by
    simp [handler, hrk, hdk, h2]
  exact ⟨hA, hA.trans hB.symm⟩

/-- Witness for C8: two always-succeeding allocators with distinct pod
ids. -/
theorem handler_success_reply_is_room_credentials_witness :
    (launchRunPodInstance envNone "u" "r" "t" none (allocPod "pod-1")).1 =
      Except.ok "pod-1" ∧
    (handler "POST" (some "rk") (some "dk")
        (Except.ok { roomUrl := "r", token := "t" }) envNone "u" none
        (allocPod "pod-1")).1 =
      { status := 200, body := ApiBody.ok "r" "t" } :=
  ⟨rfl,
   (handler_success_reply_is_room_credentials (some "rk") (some "dk")
      { roomUrl := "r", token := "t" } envNone "u" none (allocPod "pod-1")
      (allocPod "pod-2") "pod-1" "pod-2" (by decide) (by decide) rfl rfl).1⟩

/-- C9: on a POST request with either credential missing (unset or
empty), the handler replies 500 with the configuration error message
and its external-call trace is empty: no room creation and no allocator
call happens. -/
theorem handler_missing_keys_500_before_calls
    (runpodKey dailyKey : Option String) (roomResult : Except String DailyRoom)
    (env : ProvisionEnv) (uuid : String) (tts : Option Json) (alloc : Nat → AllocResult)
    (hmiss : strOptTruthy runpodKey = false ∨ strOptTruthy dailyKey = false) :
    handler "POST" runpodKey dailyKey roomResult env uuid tts alloc =
      ({ status := 500,
         body := .err "API keys not configured. Please set RUNPOD_API_KEY and DAILY_API_KEY environment variables." },
       []) := by
  cases hmiss with
  | inl h => simp [handler, h]
  | inr h => simp [handler, h]

/-- Witness for C9: the allocator key unset. -/
theorem handler_missing_keys_500_before_calls_witness :
    strOptTruthy none = false ∧
    handler "POST" none (some "dk") (Except.error "unused") envNone "u" none allocFail =
      ({ status := 500,
         body := .err "API keys not configured. Please set RUNPOD_API_KEY and DAILY_API_KEY environment variables." },
       []) :=
  ⟨rfl,
   handler_missing_keys_500_before_calls none (some "dk") (Except.error "unused")
     envNone "u" none allocFail (Or.inl rfl)⟩

/-- C10: every allocator request issued within one launch call embeds
the same session identifier and the same base64 TTS payload: each
request of the trace carries the identifier and the encoded
configuration fixed once before the loop, so any two requests of the
same trace agree on both fields. -/
theorem provision_requests_share_session_payload
    (env : ProvisionEnv) (uuid roomUrl token : String) (tts : Option Json)
    (pcs : List RunPodConfig) (dcs : List DatacenterConfig)
    (alloc : Nat → AllocResult) (r : ProvisionRequest)
    (hr : r ∈ (attemptRunPodLaunch env uuid roomUrl token tts pcs dcs alloc).2) :
    r.identifier = "pod-" ++ uuid ∧
    r.ttsConfig = base64Encode (formattedTtsConfig env tts) ∧
    ∀ s ∈ (attemptRunPodLaunch env uuid roomUrl token tts pcs dcs alloc).2,
      s.identifier = r.identifier ∧ s.ttsConfig = r.ttsConfig := by
  obtain ⟨c, hc⟩ := mem_launch_trace env uuid roomUrl token tts pcs dcs alloc r hr
  have hid : r.identifier = "pod-" ++ uuid := by rw [hc]; rfl
  have htts : r.ttsConfig = base64Encode (formattedTtsConfig env tts) := by rw [hc]; rfl
  refine ⟨hid, htts, ?_⟩
  intro s hs
  obtain ⟨c2, hc2⟩ := mem_launch_trace env uuid roomUrl token tts pcs dcs alloc s hs
  constructor
  · rw [hc2, hid]; rfl
  · rw [hc2, htts]; rfl

/-- Witness for C10: the single request of a one-candidate failing
search carries the fixed identifier. -/
theorem provision_requests_share_session_payload_witness :
    reqOf (launchContext envNone "u" "r" "t" none) (0, cfgSample, dcSample) ∈
      (attemptRunPodLaunch envNone "u" "r" "t" none [cfgSample] [dcSample] allocFail).2 ∧
    (reqOf (launchContext envNone "u" "r" "t" none) (0, cfgSample, dcSample)).identifier =
      "pod-" ++ "u" :=
  ⟨by decide,
   (provision_requests_share_session_payload envNone "u" "r" "t" none [cfgSample]
      [dcSample] allocFail
      (reqOf (launchContext envNone "u" "r" "t" none) (0, cfgSample, dcSample))
      (by decide)).1⟩

end Connect
